import Mathlib

/-!
Shallow embedding of `container_service_extension/broker_manager.py`:
the multi-provider cluster-operation dispatcher (`BrokerManager`).

External collaborators (provider brokers `VcdBroker`/`PKSBroker`, the
ovdc/pks caches, the vCD client and session) live outside the analyzed
file; they are modelled as an explicit environment `Env` of behavior
functions.  Each dispatcher method is translated to a Lean function that
returns its result together with a trace of the outbound calls it made,
so that dispatch-order and "which broker was invoked" properties can be
stated.  Python dictionaries are association lists whose values are
`Option String` (`none` models Python `None`); Python exceptions become
`Except` values.
-/

/-- A Python dict with string keys and string-or-None values. -/
abbrev PyDict := List (String × Option String)

/-- Raw lookup: `none` when the key is absent, `some v` when present
(with `v = none` modelling a stored Python `None`). -/
def pyLookup (d : PyDict) (k : String) : Option (Option String) :=
  (d.find? (fun p => p.1 == k)).map (fun p => p.2)

/-- Python `d.get(k)` / `d.get(k, None)`: absent keys and stored `None` collapse. -/
def pyGet (d : PyDict) (k : String) : Option String :=
  (pyLookup d k).getD none

/-- Python `d.get(k, default)`: the default is used only when the key is absent. -/
def pyGetD (d : PyDict) (k : String) (dflt : Option String) : Option String :=
  (pyLookup d k).getD dflt

/-- Python dict assignment `d[k] = v`: replace in place when the key exists, else append. -/
def pySet (d : PyDict) (k : String) (v : Option String) : PyDict :=
  if d.any (fun p => p.1 == k) then
    d.map (fun p => if p.1 == k then (k, v) else p)
  else
    d ++ [(k, v)]

/-- The keys of a dict, in insertion order. -/
def pyKeys (d : PyDict) : List String :=
  d.map (fun p => p.1)

/-- Python truthiness of a string-or-None value: `None` and `""` are falsy. -/
def pyTruthy : Option String → Bool
  | none => false
  | some s => !(s == "")

/-- Python `a or b` on string-or-None values. -/
def pyOr (a b : Option String) : Option String :=
  if pyTruthy a then a else b

/-- Python `str()` as used by f-string interpolation of a possibly-None value. -/
def pyStr : Option String → String
  | none => "None"
  | some s => s

/-- Python truthiness of a dict: the empty dict is falsy. -/
def pyDictTruthy (d : PyDict) : Bool :=
  !d.isEmpty

/-- ASCII lower-casing of one character, as Python `str.lower` does on ASCII. -/
def lowerChar (c : Char) : Char :=
  if 'A' ≤ c ∧ c ≤ 'Z' then Char.ofNat (c.toNat + 32) else c

/-- ASCII lower-casing of a string (`.lower()`). -/
def lowerStr (s : String) : String :=
  String.mk (s.data.map lowerChar)

/-- Helper for `splitDoubleDash`: split a character list on each
non-overlapping occurrence of `--`, scanning left to right. -/
def splitDashAux : List Char → List Char → List (List Char)
  | [], acc => [acc.reverse]
  | '-' :: '-' :: rest, acc => acc.reverse :: splitDashAux rest []
  | c :: rest, acc => splitDashAux rest (c :: acc)

/-- Python string split on the double-dash separator. -/
def splitDoubleDash (s : String) : List String :=
  (splitDashAux s.data []).map (fun l => String.mk l)

/-- Modelled from the spec: the metadata key under which the
tenant/account directory stores the provider kind of a virtual
datacenter (`CONTAINER_PROVIDER_KEY` of the `ovdc_cache` module, which
is outside the analyzed file).  Only its identity matters. -/
def CONTAINER_PROVIDER_KEY : String := "container_provider"

/-- Modelled from the spec: the native-compute provider tag
(`CtrProvType.VCD.value` of the `ovdc_cache` module). -/
def ctrProvTypeVcd : String := "vcd"

/-- Modelled from the spec: the external-service provider tag
(`CtrProvType.PKS.value` of the `ovdc_cache` module). -/
def ctrProvTypePks : String := "pks"

/-- A broker identity: the native vCD broker, or a PKS broker created
over one PKS account context. -/
inductive Broker where
  | vcd
  | pks (ctx : PyDict)
deriving DecidableEq

/-- The keyword arguments `invoke` assembles for `_create_cluster`. -/
structure CreateSpec where
  cluster_name : Option String
  vdc_name : Option String
  node_count : Option Nat
  storage_profile : Option String
  network_name : Option String
  template : Option String
  pks_plan : Option String
  pks_ext_host : Option String
deriving DecidableEq

/-- The `PksComputeProfileParams` named tuple (source lines 511-526). -/
structure PksComputeProfileParams where
  cp_name : String
  az_name : String
  description : String
  cpi : Option String
  datacenter_name : Option String
  cluster_name : Option String
  ovdc_rp_name : String
deriving DecidableEq

/-- The part of a `pvdc_info` record the dispatcher reads (`pvdc_info.vc`). -/
structure PvdcInfo where
  vc : String
deriving DecidableEq

/-- The part of an ovdc object the dispatcher reads
(the name field of the ovdc resource). -/
structure OvdcObj where
  resourceName : Option String
deriving DecidableEq

/-- Outcome of a `PKSBroker.create_compute_profile` call: success, a
`PksServerError` carrying an HTTP status, or some other exception. -/
inductive PksCallErr where
  | pksServerError (status : Nat) (msg : String)
  | other (msg : String)
deriving DecidableEq

/-- Exceptions that can escape a dispatcher method. -/
inductive Err where
  | clusterNotFound (name : Option String)
  | cseServer (msg : String)
  | brokerErr (msg : String)
  | keyError (key : String)
  | attrError (msg : String)
  | pksServer (status : Nat) (msg : String)
deriving DecidableEq

/-- One outbound call made by the dispatcher, with the arguments it
actually passed. -/
inductive Event where
  | dirLookup (ovdcName : String) (orgName : Option String)
  | getClusterInfo (b : Broker) (name : Option String)
  | getClusterConfig (b : Broker) (name : Option String)
  | listClusters (b : Broker)
  | createCluster (b : Broker) (cspec : CreateSpec)
  | resizeCluster (b : Broker) (currClusterInfo : PyDict) (name : Option String)
      (nodeCount : Option Nat)
  | deleteCluster (b : Broker) (name : Option String)
  | createComputeProfile (ctx : PyDict) (params : PksComputeProfileParams)
  | setOvdcContainerMetadata (ovdc : OvdcObj) (ctx : Option PyDict)
      (provider : Option String)
deriving DecidableEq

/-- The request-scoped inputs of one dispatch: body fields
(`req_spec.get(...)`) and query parameters.  `none` models an absent key. -/
structure Req where
  spec_vdc : Option String
  qparam_vdc : Option String
  spec_org : Option String
  qparam_org : Option String
  cluster_name : Option String
  node_count : Option Nat
  ovdc_id : Option String
  org_name : Option String
  ovdc_name : Option String
  pks_plans : Option String
  container_provider : Option String
deriving DecidableEq

/-- Behaviors of the external collaborators of one dispatch: the two
broker kinds, the pks/ovdc caches, and the session. -/
structure Env where
  vcdGetClusterInfo : Option String → Except String PyDict
  vcdGetClusterConfig : Option String → Except String String
  vcdListClusters : Except String (List PyDict)
  vcdCreateCluster : CreateSpec → Except String PyDict
  vcdResizeCluster : PyDict → Option String → Option Nat → Except String PyDict
  vcdDeleteCluster : Option String → Except String PyDict
  pksGetClusterInfo : PyDict → Option String → Except String PyDict
  pksGetClusterConfig : PyDict → Option String → Except String String
  pksListClusters : PyDict → Except String (List PyDict)
  pksCreateCluster : PyDict → CreateSpec → Except String PyDict
  pksResizeCluster : PyDict → PyDict → Option String → Option Nat →
      Except String PyDict
  pksDeleteCluster : PyDict → Option String → Except String PyDict
  createComputeProfile : PyDict → PksComputeProfileParams → Except PksCallErr Unit
  isSysadmin : Bool
  sessionOrg : Option String
  pksCachePresent : Bool
  allPksAccountInfoInSystem : List PyDict
  orgsHaveExclusivePksAccount : Bool
  exclusivePksAccountsForOrg : Option String → List PyDict
  orgVdcNames : List String
  ovdcMetadata : String → Option String → PyDict
  constructPksContext : PyDict → PyDict
  getOvdc : Option String → OvdcObj
  getPvdcId : OvdcObj → String
  getPvdcInfo : String → PvdcInfo
  getPksAccountInfo : Option String → String → PyDict
  getNsxtInfo : String → PyDict
  getComputeProfileName : Option String → Option String → String
  constructPksContextFull : PyDict → PvdcInfo → PyDict → String → String → PyDict
  setOvdcMetadata : OvdcObj → Option PyDict → Option String → PyDict

/-- Broker-facade dispatch for `get_cluster_info`. -/
def getClusterInfoB (env : Env) : Broker → Option String → Except String PyDict
  | Broker.vcd, n => env.vcdGetClusterInfo n
  | Broker.pks ctx, n => env.pksGetClusterInfo ctx n

/-- Broker-facade dispatch for `get_cluster_config`. -/
def getClusterConfigB (env : Env) : Broker → Option String → Except String String
  | Broker.vcd, n => env.vcdGetClusterConfig n
  | Broker.pks ctx, n => env.pksGetClusterConfig ctx n

/-- Broker-facade dispatch for `list_clusters`. -/
def listClustersB (env : Env) : Broker → Except String (List PyDict)
  | Broker.vcd => env.vcdListClusters
  | Broker.pks ctx => env.pksListClusters ctx

/-- Broker-facade dispatch for `create_cluster`. -/
def createClusterB (env : Env) : Broker → CreateSpec → Except String PyDict
  | Broker.vcd, s => env.vcdCreateCluster s
  | Broker.pks ctx, s => env.pksCreateCluster ctx s

/-- Broker-facade dispatch for `resize_cluster`. -/
def resizeClusterB (env : Env) :
    Broker → PyDict → Option String → Option Nat → Except String PyDict
  | Broker.vcd, c, n, k => env.vcdResizeCluster c n k
  | Broker.pks ctx, c, n, k => env.pksResizeCluster ctx c n k

/-- Broker-facade dispatch for `delete_cluster`. -/
def deleteClusterB (env : Env) : Broker → Option String → Except String PyDict
  | Broker.vcd, n => env.vcdDeleteCluster n
  | Broker.pks ctx, n => env.pksDeleteCluster ctx n

/-- Success test on an `Except` value. -/
def exOk : Except ε α → Bool
  | Except.ok _ => true
  | Except.error _ => false

/-- The computation of `is_ovdc_present_in_request` performed by
`invoke` (source lines 99-100). -/
def isOvdcPresentInRequest (req : Req) : Bool :=
  pyTruthy (pyOr req.spec_vdc req.qparam_vdc)

/-- Python dict assignment on the endpoint-keyed context dict of
`_create_pks_context_for_all_accounts_in_org`: an existing key keeps its
position and gets the new value, a new key is appended. -/
def ctxDictSet (d : List (Option String × PyDict)) (k : Option String)
    (v : PyDict) : List (Option String × PyDict) :=
  if d.any (fun p => p.1 == k) then
    d.map (fun p => if p.1 == k then (k, v) else p)
  else
    d ++ [(k, v)]

/-- The per-vdc loop of `_create_pks_context_for_all_accounts_in_org`
(source lines 377-386): resolve the ownership metadata of each vdc, keep the
PKS-owned ones, and key them by their `vc` endpoint to deduplicate. -/
def buildPksCtxDict (env : Env) (acc : List (Option String × PyDict)) :
    List String → List (Option String × PyDict)
  | [] => acc
  | v :: rest =>
    let ctx := env.ovdcMetadata v env.sessionOrg
    if pyGet ctx CONTAINER_PROVIDER_KEY == some ctrProvTypePks then
      buildPksCtxDict env (ctxDictSet acc (pyGet ctx "vc") ctx) rest
    else
      buildPksCtxDict env acc rest

/-- Source `_create_pks_context_for_all_accounts_in_org` (lines 334-390),
paired with the directory lookups it performs. -/
def createPksContextForAllAccountsInOrg (env : Env) :
    List PyDict × List Event :=
  if !env.pksCachePresent then ([], [])
  else if env.isSysadmin then
    (env.allPksAccountInfoInSystem.map env.constructPksContext, [])
  else if env.orgsHaveExclusivePksAccount then
    ((env.exclusivePksAccountsForOrg env.sessionOrg).map env.constructPksContext,
     [])
  else
    ((buildPksCtxDict env [] env.orgVdcNames).map (fun p => p.2),
     env.orgVdcNames.map (fun v => Event.dirLookup v env.sessionOrg))

/-- The PKS half of `_find_cluster_in_org` (source lines 323-330): probe
each candidate account in order, returning on the first broker whose
`get_cluster_info` does not raise; an exception is treated as a miss. -/
def probePksList (env : Env) (name : Option String) :
    List PyDict → Option (PyDict × Broker) × List Event
  | [] => (none, [])
  | ctx :: rest =>
    match env.pksGetClusterInfo ctx name with
    | Except.ok c =>
        (some (c, Broker.pks ctx), [Event.getClusterInfo (Broker.pks ctx) name])
    | Except.error _ =>
        let r := probePksList env name rest
        (r.1, Event.getClusterInfo (Broker.pks ctx) name :: r.2)

/-- Source `_find_cluster_in_org` (lines 306-332): probe the vCD broker
first; on an exception, enumerate the PKS accounts of the org and probe
each in order; `(none, ...)` when every candidate misses. -/
def findClusterInOrg (env : Env) (name : Option String) :
    Option (PyDict × Broker) × List Event :=
  match env.vcdGetClusterInfo name with
  | Except.ok c => (some (c, Broker.vcd), [Event.getClusterInfo Broker.vcd name])
  | Except.error _ =>
    let enum := createPksContextForAllAccountsInOrg env
    let r := probePksList env name enum.1
    (r.1, Event.getClusterInfo Broker.vcd name :: (enum.2 ++ r.2))

/-- Source `get_broker_based_on_vdc` (lines 407-446): with a truthy vdc
and org, one directory lookup decides the provider kind; otherwise fall
back to the vCD broker. -/
def getBrokerBasedOnVdc (env : Env) (req : Req) :
    Except Err Broker × List Event :=
  let ovdcName := pyOr req.spec_vdc req.qparam_vdc
  let orgName := pyOr (pyOr req.spec_org req.qparam_org) env.sessionOrg
  if pyTruthy ovdcName && pyTruthy orgName then
    let ctx := env.ovdcMetadata (ovdcName.getD "") orgName
    let tr := [Event.dirLookup (ovdcName.getD "") orgName]
    if pyGet ctx CONTAINER_PROVIDER_KEY == some ctrProvTypePks then
      (Except.ok (Broker.pks ctx), tr)
    else if pyGet ctx CONTAINER_PROVIDER_KEY == some ctrProvTypeVcd then
      (Except.ok Broker.vcd, tr)
    else
      (Except.error (Err.cseServer ("Vdc " ++ ovdcName.getD "" ++
        " is not enabled for Kubernetes cluster deployment")), tr)
  else
    (Except.ok Broker.vcd, [])

/-- Python truthiness of the cluster component of the search result, as
tested by `if cluster:` / `if not cluster:` in the consumers of
`_find_cluster_in_org` (a missing cluster is `None`, hence falsy; an
empty record is falsy too). -/
def clusterResultTruthy : Option (PyDict × Broker) → Bool
  | none => false
  | some (c, _) => pyDictTruthy c

/-- Source `_get_cluster_info` (lines 202-228): direct resolution when
the request names a vdc, fan-out search otherwise; raises
`ClusterNotFoundError` unless the search resolves a truthy record
(line 224 tests `if cluster:`). -/
def getClusterInfoM (env : Env) (req : Req) (name : Option String) :
    Except Err (PyDict × Broker) × List Event :=
  if isOvdcPresentInRequest req then
    match getBrokerBasedOnVdc env req with
    | (Except.error e, tr) => (Except.error e, tr)
    | (Except.ok b, tr) =>
      match getClusterInfoB env b name with
      | Except.ok c => (Except.ok (c, b), tr ++ [Event.getClusterInfo b name])
      | Except.error m =>
          (Except.error (Err.brokerErr m), tr ++ [Event.getClusterInfo b name])
  else
    let r := findClusterInOrg env name
    match r.1 with
    | some (c, b) =>
      if pyDictTruthy c then (Except.ok (c, b), r.2)
      else (Except.error (Err.clusterNotFound name), r.2)
    | none => (Except.error (Err.clusterNotFound name), r.2)

/-- Source `_get_cluster_config` (lines 230-249); the search path
proceeds only when the resolved record is truthy (line 245 tests
`if cluster:`), falling through to `ClusterNotFoundError` otherwise. -/
def getClusterConfigM (env : Env) (req : Req) (name : Option String) :
    Except Err String × List Event :=
  if isOvdcPresentInRequest req then
    match getBrokerBasedOnVdc env req with
    | (Except.error e, tr) => (Except.error e, tr)
    | (Except.ok b, tr) =>
      match getClusterConfigB env b name with
      | Except.ok cfg => (Except.ok cfg, tr ++ [Event.getClusterConfig b name])
      | Except.error m =>
          (Except.error (Err.brokerErr m), tr ++ [Event.getClusterConfig b name])
  else
    let r := findClusterInOrg env name
    match r.1 with
    | some (c, b) =>
      if pyDictTruthy c then
        match pyLookup c "name" with
        | none => (Except.error (Err.keyError "name"), r.2)
        | some cn =>
          match getClusterConfigB env b cn with
          | Except.ok cfg =>
              (Except.ok cfg, r.2 ++ [Event.getClusterConfig b cn])
          | Except.error m =>
              (Except.error (Err.brokerErr m),
               r.2 ++ [Event.getClusterConfig b cn])
      else (Except.error (Err.clusterNotFound name), r.2)
    | none => (Except.error (Err.clusterNotFound name), r.2)

/-- The common projection keys of `_list_clusters` (source line 266). -/
def commonClusterProperties : List String := ["name", "vdc", "status"]

/-- The dict comprehension over the common keys
(sources lines 270-271 and 394-395). -/
def projectKeys (cluster : PyDict) (keys : List String) : PyDict :=
  keys.map (fun k => (k, pyGet cluster k))

/-- The vCD-record projection of `_list_clusters` (source lines 270-273):
project to the common keys and tag with the native provider kind. -/
def projectVcdCluster (cluster : PyDict) : PyDict :=
  pySet (projectKeys cluster commonClusterProperties) CONTAINER_PROVIDER_KEY
    (some ctrProvTypeVcd)

/-- Source `_get_truncated_cluster_info` (lines 392-405).  Here `none` models
the `AttributeError` Python raises when `.lower()` is applied to a stored
`None` (last-action or status present with value `None`). -/
def getTruncatedClusterInfo (cluster : PyDict) (keys : List String) :
    Option PyDict :=
  let pks := projectKeys cluster keys
  let cpn := pyGetD cluster "compute-profile-name" (some "")
  let vdcVal :=
    if pyTruthy cpn then (splitDoubleDash (cpn.getD "")).getLastD "" else ""
  let pks2 := pySet pks "vdc" (some vdcVal)
  match pyGetD cluster "last-action" (some "") with
  | none => none
  | some la =>
    match pyGetD pks2 "status" (some "") with
    | none => none
    | some st =>
        some (pySet pks2 "status" (some (lowerStr la ++ " " ++ lowerStr st)))

/-- The inner PKS loop body of `_list_clusters` (source lines 280-284):
truncate each raw PKS record and tag it with the PKS provider kind. -/
def projectPksRecords : List PyDict → Option (List PyDict)
  | [] => some []
  | c :: rest =>
    match getTruncatedClusterInfo c commonClusterProperties with
    | none => none
    | some d =>
      match projectPksRecords rest with
      | none => none
      | some ds =>
          some (pySet d CONTAINER_PROVIDER_KEY (some ctrProvTypePks) :: ds)

/-- The PKS aggregation loop of `_list_clusters` (source lines 275-284):
list the clusters of each candidate account in order and project them;
an exception from a broker or a projection aborts the whole listing. -/
def projectPksClusters (env : Env) :
    List PyDict → Except Err (List PyDict) × List Event
  | [] => (Except.ok [], [])
  | ctx :: rest =>
    match env.pksListClusters ctx with
    | Except.error m =>
        (Except.error (Err.brokerErr m), [Event.listClusters (Broker.pks ctx)])
    | Except.ok cs =>
      match projectPksRecords cs with
      | none =>
          (Except.error (Err.attrError "NoneType has no attribute lower"),
           [Event.listClusters (Broker.pks ctx)])
      | some ps =>
        let r := projectPksClusters env rest
        (Except.map (fun l => ps ++ l) r.1,
         Event.listClusters (Broker.pks ctx) :: r.2)

/-- Source `_list_clusters` (lines 251-285): direct dispatch when a vdc
is named, otherwise aggregate the vCD records (projected) followed by the
PKS records of every enumerated account. -/
def listClustersM (env : Env) (req : Req) :
    Except Err (List PyDict) × List Event :=
  if isOvdcPresentInRequest req then
    match getBrokerBasedOnVdc env req with
    | (Except.error e, tr) => (Except.error e, tr)
    | (Except.ok b, tr) =>
      match listClustersB env b with
      | Except.ok cs => (Except.ok cs, tr ++ [Event.listClusters b])
      | Except.error m =>
          (Except.error (Err.brokerErr m), tr ++ [Event.listClusters b])
  else
    match env.vcdListClusters with
    | Except.error m =>
        (Except.error (Err.brokerErr m), [Event.listClusters Broker.vcd])
    | Except.ok vcs =>
      let enum := createPksContextForAllAccountsInOrg env
      let r := projectPksClusters env enum.1
      (Except.map (fun ps => vcs.map projectVcdCluster ++ ps) r.1,
       Event.listClusters Broker.vcd :: (enum.2 ++ r.2))

/-- Source `_resize_cluster` (lines 287-289): resolve the cluster and its
broker, then call the resize of that broker passing the resolved record. -/
def resizeClusterM (env : Env) (req : Req) (name : Option String)
    (nodeCount : Option Nat) : Except Err PyDict × List Event :=
  match getClusterInfoM env req name with
  | (Except.error e, tr) => (Except.error e, tr)
  | (Except.ok (c, b), tr) =>
    match resizeClusterB env b c name nodeCount with
    | Except.ok body =>
        (Except.ok body, tr ++ [Event.resizeCluster b c name nodeCount])
    | Except.error m =>
        (Except.error (Err.brokerErr m),
         tr ++ [Event.resizeCluster b c name nodeCount])

/-- Source `_delete_cluster` (lines 291-294): resolve the broker (the
resolved cluster record is discarded) and call its delete with only the
cluster name. -/
def deleteClusterM (env : Env) (req : Req) (name : Option String) :
    Except Err PyDict × List Event :=
  match getClusterInfoM env req name with
  | (Except.error e, tr) => (Except.error e, tr)
  | (Except.ok (_, b), tr) =>
    match deleteClusterB env b name with
    | Except.ok body => (Except.ok body, tr ++ [Event.deleteCluster b name])
    | Except.error m =>
        (Except.error (Err.brokerErr m), tr ++ [Event.deleteCluster b name])

/-- Source `_create_cluster` (lines 296-304): search every reachable
provider for the name; when the search result is falsy (line 299 tests
`if not cluster:`, so a miss or an empty record) the destination broker
is resolved from the request context and creation is delegated,
otherwise the duplicate error is raised. -/
def createClusterM (env : Env) (req : Req) (cspec : CreateSpec) :
    Except Err PyDict × List Event :=
  let f := findClusterInOrg env cspec.cluster_name
  if !clusterResultTruthy f.1 then
    match getBrokerBasedOnVdc env req with
    | (Except.error e, tr) => (Except.error e, f.2 ++ tr)
    | (Except.ok b, tr) =>
      match createClusterB env b cspec with
      | Except.ok body =>
          (Except.ok body, f.2 ++ tr ++ [Event.createCluster b cspec])
      | Except.error m =>
          (Except.error (Err.brokerErr m),
           f.2 ++ tr ++ [Event.createCluster b cspec])
  else
    (Except.error (Err.cseServer ("Cluster with name: " ++
      pyStr cspec.cluster_name ++ " already found")), f.2)

/-- Source `_get_ovdc_params` (lines 448-475). -/
def getOvdcParams (env : Env) (req : Req) :
    Except Err (Option PyDict × OvdcObj) :=
  match req.pks_plans with
  | none => Except.error (Err.keyError "pks_plans")
  | some plans =>
    let ovdc := env.getOvdc req.ovdc_id
    let pvdcId := env.getPvdcId ovdc
    match req.container_provider with
    | none => Except.error (Err.keyError CONTAINER_PROVIDER_KEY)
    | some cp =>
      if cp == ctrProvTypePks then
        if !env.pksCachePresent then
          Except.error (Err.cseServer "PKS config file does not exist")
        else
          let pvdcInfo := env.getPvdcInfo pvdcId
          let pksAccount := env.getPksAccountInfo req.org_name pvdcInfo.vc
          let nsxt := env.getNsxtInfo pvdcInfo.vc
          let cpName := env.getComputeProfileName req.ovdc_id ovdc.resourceName
          Except.ok
            (some (env.constructPksContextFull pksAccount pvdcInfo nsxt cpName
              plans), ovdc)
      else Except.ok (none, ovdc)

/-- The compute-profile parameter construction of
`_create_pks_compute_profile` (source lines 478-495). -/
def pksComputeProfileParamsOf (env : Env) (req : Req) (pksCtx : PyDict) :
    PksComputeProfileParams :=
  { cp_name := env.getComputeProfileName req.ovdc_id req.ovdc_name
    az_name := "az-" ++ pyStr req.ovdc_name
    description := pyStr req.org_name ++ "--" ++ pyStr req.ovdc_name ++
      "--" ++ pyStr req.ovdc_id
    cpi := pyGet pksCtx "cpi"
    datacenter_name := pyGet pksCtx "datacenter"
    cluster_name := pyGet pksCtx "cluster"
    ovdc_rp_name := pyStr req.ovdc_name ++ " (" ++ pyStr req.ovdc_id ++ ")" }

/-- Source `_create_pks_compute_profile` (lines 477-508): build the
profile parameters and submit them; a `PksServerError` with HTTP status
409 (conflict) is swallowed, any other status is re-raised. -/
def createPksComputeProfileM (env : Env) (req : Req) (pksCtx : PyDict) :
    Except Err Unit × List Event :=
  let params := pksComputeProfileParamsOf env req pksCtx
  match env.createComputeProfile pksCtx params with
  | Except.ok _ => (Except.ok (), [Event.createComputeProfile pksCtx params])
  | Except.error (PksCallErr.pksServerError s m) =>
    if s == 409 then (Except.ok (), [Event.createComputeProfile pksCtx params])
    else
      (Except.error (Err.pksServer s m),
       [Event.createComputeProfile pksCtx params])
  | Except.error (PksCallErr.other m) =>
      (Except.error (Err.brokerErr m),
       [Event.createComputeProfile pksCtx params])

/-- The `ENABLE_OVDC` branch of `invoke` (source lines 107-118): resolve
the ovdc parameters, run the compute-profile pre-step when the target
provider is PKS, then persist the ownership metadata and return the task
body. -/
def enableOvdcOp (env : Env) (req : Req) : Except Err PyDict × List Event :=
  match getOvdcParams env req with
  | Except.error e => (Except.error e, [])
  | Except.ok (pksCtx, ovdc) =>
    match req.container_provider with
    | none => (Except.error (Err.keyError CONTAINER_PROVIDER_KEY), [])
    | some cp =>
      if cp == ctrProvTypePks then
        match pksCtx with
        | none => (Except.error (Err.attrError "NoneType has no attribute get"),
            [])
        | some ctx =>
          match createPksComputeProfileM env req ctx with
          | (Except.error e, tr) => (Except.error e, tr)
          | (Except.ok _, tr) =>
            let task := env.setOvdcMetadata ovdc pksCtx req.container_provider
            (Except.ok [("task_href", pyGet task "href")],
             tr ++ [Event.setOvdcContainerMetadata ovdc pksCtx
               req.container_provider])
      else
        let task := env.setOvdcMetadata ovdc pksCtx req.container_provider
        (Except.ok [("task_href", pyGet task "href")],
         [Event.setOvdcContainerMetadata ovdc pksCtx req.container_provider])

/-- Spec-side reading of the search result: probe the native broker
first, then the first external account whose probe succeeds. -/
def firstPksHit (env : Env) (name : Option String) :
    List PyDict → Option (PyDict × Broker)
  | [] => none
  | ctx :: rest =>
    match env.pksGetClusterInfo ctx name with
    | Except.ok c => some (c, Broker.pks ctx)
    | Except.error _ => firstPksHit env name rest

/-- Spec-side reading of which external accounts get probed: the
enumeration prefix up to and including the first hit. -/
def takeUpToFirstHit (env : Env) (name : Option String) :
    List PyDict → List PyDict
  | [] => []
  | ctx :: rest =>
    if exOk (env.pksGetClusterInfo ctx name) then [ctx]
    else ctx :: takeUpToFirstHit env name rest

/-- Spec-side reading of the overall first-hit result of the
ownership-unknown search. -/
def firstHitSpec (env : Env) (name : Option String) :
    Option (PyDict × Broker) :=
  match env.vcdGetClusterInfo name with
  | Except.ok c => some (c, Broker.vcd)
  | Except.error _ =>
      firstPksHit env name (createPksContextForAllAccountsInOrg env).1

/-- The brokers probed by `get_cluster_info` calls, in trace order. -/
def probeTargets (tr : List Event) : List Broker :=
  tr.filterMap (fun e =>
    match e with
    | Event.getClusterInfo b _ => some b
    | _ => none)

/-- Spec-side reading of the probe order: native first, then external
accounts in enumeration order up to the first hit. -/
def probedCandidatesSpec (env : Env) (name : Option String) : List Broker :=
  match env.vcdGetClusterInfo name with
  | Except.ok _ => [Broker.vcd]
  | Except.error _ =>
      Broker.vcd ::
        (takeUpToFirstHit env name
          (createPksContextForAllAccountsInOrg env).1).map Broker.pks

/-- Recognizes a `create_cluster` broker call. -/
def isCreateEvent : Event → Bool
  | Event.createCluster _ _ => true
  | _ => false

/-- The `create_cluster` calls of a trace. -/
def createCalls (tr : List Event) : List Event :=
  tr.filter isCreateEvent

/-- Recognizes any call into a broker facade (directory lookups and
metadata persistence are not broker calls). -/
def isBrokerCallEvent : Event → Bool
  | Event.dirLookup _ _ => false
  | Event.setOvdcContainerMetadata _ _ _ => false
  | _ => true

/-- Recognizes the ownership-persistence call of the enable operation. -/
def isSetMetadataEvent : Event → Bool
  | Event.setOvdcContainerMetadata _ _ _ => true
  | _ => false

/-- Every candidate of the ownership-unknown search misses: the native
probe raises, and so does the probe of every enumerated account. -/
def allCandidatesMiss (env : Env) (name : Option String) : Prop :=
  exOk (env.vcdGetClusterInfo name) = false ∧
  ∀ ctx ∈ (createPksContextForAllAccountsInOrg env).1,
    exOk (env.pksGetClusterInfo ctx name) = false

/-- The ownership-unknown search does not resolve a truthy record:
either every candidate misses or fails, or the first successful probe
returned a falsy (empty) record. -/
def searchMissOrFalsy (env : Env) (name : Option String) : Prop :=
  allCandidatesMiss env name ∨
  ∃ c b, (findClusterInOrg env name).1 = some (c, b) ∧ pyDictTruthy c = false

theorem probePksList_fst (env : Env) (name : Option String) :
    ∀ l, (probePksList env name l).1 = firstPksHit env name l := by
  intro l
  induction l with
  | nil => rfl
  | cons ctx rest ih =>
    cases h : env.pksGetClusterInfo ctx name <;>
      simp [probePksList, firstPksHit, h, ih]

theorem probePksList_snd (env : Env) (name : Option String) :
    ∀ l, (probePksList env name l).2 =
      (takeUpToFirstHit env name l).map
        (fun ctx => Event.getClusterInfo (Broker.pks ctx) name) := by
  intro l
  induction l with
  | nil => rfl
  | cons ctx rest ih =>
    cases h : env.pksGetClusterInfo ctx name <;>
      simp [probePksList, takeUpToFirstHit, exOk, h, ih]

theorem firstPksHit_eq_none_iff (env : Env) (name : Option String) :
    ∀ l, firstPksHit env name l = none ↔
      ∀ ctx ∈ l, exOk (env.pksGetClusterInfo ctx name) = false := by
  intro l
  induction l with
  | nil => simp [firstPksHit]
  | cons ctx rest ih =>
    cases h : env.pksGetClusterInfo ctx name <;>
      simp [firstPksHit, exOk, h, ih]

theorem findClusterInOrg_none_iff (env : Env) (name : Option String) :
    (findClusterInOrg env name).1 = none ↔ allCandidatesMiss env name := by
  cases h : env.vcdGetClusterInfo name <;>
    simp [findClusterInOrg, allCandidatesMiss, exOk, h, probePksList_fst,
      firstPksHit_eq_none_iff]

theorem searchMissOrFalsy_of_none (env : Env) (name : Option String)
    (hf : (findClusterInOrg env name).1 = none) :
    searchMissOrFalsy env name :=
  Or.inl ((findClusterInOrg_none_iff env name).mp hf)

theorem not_searchMissOrFalsy_of_truthy (env : Env) (name : Option String)
    (c : PyDict) (b : Broker)
    (hf : (findClusterInOrg env name).1 = some (c, b))
    (htr : pyDictTruthy c = true) : ¬ searchMissOrFalsy env name := by
  rintro (hmiss | ⟨c2, b2, hf2, hfalse⟩)
  · rw [(findClusterInOrg_none_iff env name).mpr hmiss] at hf
    exact Option.noConfusion hf
  · rw [hf] at hf2
    have hcc : c = c2 ∧ b = b2 := by
      simpa [Prod.ext_iff] using hf2
    rw [← hcc.1, htr] at hfalse
    exact Bool.noConfusion hfalse

theorem probeTargets_append (a b : List Event) :
    probeTargets (a ++ b) = probeTargets a ++ probeTargets b := by
  simp [probeTargets]

theorem probeTargets_cons_probe (b : Broker) (n : Option String)
    (tr : List Event) :
    probeTargets (Event.getClusterInfo b n :: tr) = b :: probeTargets tr := by
  simp [probeTargets]

theorem probeTargets_dirLookups (l : List String) (o : Option String) :
    probeTargets (l.map (fun v => Event.dirLookup v o)) = [] := by
  induction l with
  | nil => rfl
  | cons v rest ih => simp [probeTargets]

theorem probeTargets_pksProbes (name : Option String) (l : List PyDict) :
    probeTargets (l.map (fun ctx => Event.getClusterInfo (Broker.pks ctx) name))
      = l.map Broker.pks := by
  induction l with
  | nil => rfl
  | cons ctx rest ih => simpa [probeTargets] using ih

theorem probeTargets_enum (env : Env) :
    probeTargets (createPksContextForAllAccountsInOrg env).2 = [] := by
  unfold createPksContextForAllAccountsInOrg
  split
  · rfl
  · split
    · rfl
    · split
      · rfl
      · exact probeTargets_dirLookups env.orgVdcNames env.sessionOrg

/-- C2: the ownership-unknown search probes the native-compute broker
first, then the enumerated external accounts in order, returns the
(cluster, broker) pair of the first successful probe, and does not probe
any later candidate. -/
theorem claim_C2_search_order (env : Env) (name : Option String) :
    (findClusterInOrg env name).1 = firstHitSpec env name ∧
    probeTargets (findClusterInOrg env name).2 =
      probedCandidatesSpec env name := by
  cases h : env.vcdGetClusterInfo name with
  | ok c =>
      constructor
      · simp [findClusterInOrg, firstHitSpec, h]
      · simp [findClusterInOrg, probedCandidatesSpec, probeTargets, h]
  | error m =>
      constructor
      · simp [findClusterInOrg, firstHitSpec, h, probePksList_fst]
      · have h2 : (findClusterInOrg env name).2 =
            Event.getClusterInfo Broker.vcd name ::
              ((createPksContextForAllAccountsInOrg env).2 ++
               (probePksList env name
                 (createPksContextForAllAccountsInOrg env).1).2) := by
          simp [findClusterInOrg, h]
        rw [h2, probeTargets_cons_probe, probeTargets_append,
          probeTargets_enum, probePksList_snd, probeTargets_pksProbes]
        simp [probedCandidatesSpec, h]

/-- C3 amended: in the ownership-unknown path, a probe exception is
treated as a miss and the search continues; `get_cluster_info` and
`get_cluster_config` raise the cluster-not-found error exactly when
every probed candidate misses or fails, or the first successful probe
returned a falsy (empty) record. -/
theorem claim_C3_miss_on_error (env : Env) (req : Req) (name : Option String)
    (h : isOvdcPresentInRequest req = false) :
    ((getClusterInfoM env req name).1 =
        Except.error (Err.clusterNotFound name) ↔
      searchMissOrFalsy env name) ∧
    ((getClusterConfigM env req name).1 =
        Except.error (Err.clusterNotFound name) ↔
      searchMissOrFalsy env name) := by
  cases hf : (findClusterInOrg env name).1 with
  | none =>
    have hS := searchMissOrFalsy_of_none env name hf
    constructor
    · exact ⟨fun _ => hS, fun _ => by simp [getClusterInfoM, h, hf]⟩
    · exact ⟨fun _ => hS, fun _ => by simp [getClusterConfigM, h, hf]⟩
  | some cb =>
    obtain ⟨c, b⟩ := cb
    cases htr : pyDictTruthy c with
    | true =>
      have hnS := not_searchMissOrFalsy_of_truthy env name c b hf htr
      constructor
      · constructor
        · intro hL; simp [getClusterInfoM, h, hf, htr] at hL
        · intro hR; exact absurd hR hnS
      · constructor
        · intro hL
          cases hn : pyLookup c "name" with
          | none => simp [getClusterConfigM, h, hf, htr, hn] at hL
          | some cn =>
            cases hc : getClusterConfigB env b cn <;>
              simp [getClusterConfigM, h, hf, htr, hn, hc] at hL
        · intro hR; exact absurd hR hnS
    | false =>
      have hS : searchMissOrFalsy env name := Or.inr ⟨c, b, hf, htr⟩
      constructor
      · exact ⟨fun _ => hS, fun _ => by simp [getClusterInfoM, h, hf, htr]⟩
      · exact ⟨fun _ => hS, fun _ => by simp [getClusterConfigM, h, hf, htr]⟩

theorem createCalls_append (a b : List Event) :
    createCalls (a ++ b) = createCalls a ++ createCalls b := by
  simp [createCalls]

theorem createCalls_dirLookups (l : List String) (o : Option String) :
    createCalls (l.map (fun v => Event.dirLookup v o)) = [] := by
  induction l with
  | nil => rfl
  | cons v rest ih => simp [createCalls, isCreateEvent]

theorem createCalls_pksProbes (name : Option String) (l : List PyDict) :
    createCalls
      (l.map (fun ctx => Event.getClusterInfo (Broker.pks ctx) name)) = [] := by
  induction l with
  | nil => rfl
  | cons ctx rest ih => simp [createCalls, isCreateEvent]

theorem createCalls_enum (env : Env) :
    createCalls (createPksContextForAllAccountsInOrg env).2 = [] := by
  unfold createPksContextForAllAccountsInOrg
  split
  · rfl
  · split
    · rfl
    · split
      · rfl
      · exact createCalls_dirLookups env.orgVdcNames env.sessionOrg

theorem createCalls_find (env : Env) (name : Option String) :
    createCalls (findClusterInOrg env name).2 = [] := by
  cases h : env.vcdGetClusterInfo name with
  | ok c => simp [findClusterInOrg, h, createCalls, isCreateEvent]
  | error m =>
    have h2 : (findClusterInOrg env name).2 =
        Event.getClusterInfo Broker.vcd name ::
          ((createPksContextForAllAccountsInOrg env).2 ++
           (probePksList env name
             (createPksContextForAllAccountsInOrg env).1).2) := by
      simp [findClusterInOrg, h]
    rw [h2]
    have h3 : createCalls
        (Event.getClusterInfo Broker.vcd name ::
          ((createPksContextForAllAccountsInOrg env).2 ++
           (probePksList env name
             (createPksContextForAllAccountsInOrg env).1).2)) =
        createCalls (createPksContextForAllAccountsInOrg env).2 ++
        createCalls (probePksList env name
          (createPksContextForAllAccountsInOrg env).1).2 := by
      simp [createCalls, isCreateEvent]
    rw [h3, createCalls_enum, probePksList_snd, createCalls_pksProbes]
    rfl

theorem createCalls_getBroker (env : Env) (req : Req) :
    createCalls (getBrokerBasedOnVdc env req).2 = [] := by
  simp only [getBrokerBasedOnVdc]
  split
  · split
    · simp [createCalls, isCreateEvent]
    · split <;> simp [createCalls, isCreateEvent]
  · rfl

theorem createCalls_create_delegate (env : Env) (req : Req)
    (cspec : CreateSpec) (b : Broker)
    (hf : clusterResultTruthy (findClusterInOrg env cspec.cluster_name).1
      = false)
    (hb : (getBrokerBasedOnVdc env req).1 = Except.ok b) :
    createCalls (createClusterM env req cspec).2 =
      [Event.createCluster b cspec] := by
  rcases hg : getBrokerBasedOnVdc env req with ⟨eb, tr2⟩
  have heb : eb = Except.ok b := by rw [hg] at hb; exact hb
  subst heb
  have htr2 : createCalls tr2 = [] := by
    have := createCalls_getBroker env req
    rw [hg] at this; exact this
  cases hc : createClusterB env b cspec with
  | ok body =>
    have : (createClusterM env req cspec).2 =
        (findClusterInOrg env cspec.cluster_name).2 ++ tr2 ++
          [Event.createCluster b cspec] := by
      simp [createClusterM, hf, hg, hc]
    rw [this, createCalls_append, createCalls_append, createCalls_find, htr2]
    rfl
  | error m =>
    have : (createClusterM env req cspec).2 =
        (findClusterInOrg env cspec.cluster_name).2 ++ tr2 ++
          [Event.createCluster b cspec] := by
      simp [createClusterM, hf, hg, hc]
    rw [this, createCalls_append, createCalls_append, createCalls_find, htr2]
    rfl

/-- C1 amended: a create-cluster request whose ownership-unknown search
resolves a truthy (non-empty) record fails with the duplicate-cluster
error and no `create_cluster` of any broker is invoked; when every
candidate misses or fails, or the resolved record is falsy (empty),
creation is delegated to exactly the broker resolved from the request
vdc/org context. -/
theorem claim_C1_create_duplicate (env : Env) (req : Req) (cspec : CreateSpec) :
    (∀ c b, (findClusterInOrg env cspec.cluster_name).1 = some (c, b) →
      pyDictTruthy c = true →
      (createClusterM env req cspec).1 =
        Except.error (Err.cseServer ("Cluster with name: " ++
          pyStr cspec.cluster_name ++ " already found")) ∧
      createCalls (createClusterM env req cspec).2 = []) ∧
    (searchMissOrFalsy env cspec.cluster_name →
      ∀ b, (getBrokerBasedOnVdc env req).1 = Except.ok b →
        createCalls (createClusterM env req cspec).2 =
          [Event.createCluster b cspec]) := by
  constructor
  · intro c b hf htr
    have hT : clusterResultTruthy
        (findClusterInOrg env cspec.cluster_name).1 = true := by
      rw [hf]; simpa [clusterResultTruthy] using htr
    constructor
    · simp [createClusterM, hT]
    · have : (createClusterM env req cspec).2 =
          (findClusterInOrg env cspec.cluster_name).2 := by
        simp [createClusterM, hT]
      rw [this, createCalls_find]
  · intro hS b hb
    have hF : clusterResultTruthy
        (findClusterInOrg env cspec.cluster_name).1 = false := by
      rcases hS with hmiss | ⟨c, b2, hf, htr⟩
      · rw [(findClusterInOrg_none_iff env cspec.cluster_name).mpr hmiss]
        rfl
      · rw [hf]; simpa [clusterResultTruthy] using htr
    exact createCalls_create_delegate env req cspec b hF hb

/-- C10: when the vdc name or the org name cannot be determined from the
request body, query parameters, or session, the dispatcher falls back to
the native vCD broker without raising; in particular a create-cluster
request naming no vdc is delegated to the vCD broker once the
duplicate-name search misses. -/
theorem claim_C10_default_broker (env : Env) (req : Req)
    (cspec : CreateSpec) :
    ((pyTruthy (pyOr req.spec_vdc req.qparam_vdc) = false ∨
      pyTruthy (pyOr (pyOr req.spec_org req.qparam_org) env.sessionOrg)
        = false) →
      getBrokerBasedOnVdc env req = (Except.ok Broker.vcd, [])) ∧
    (pyTruthy (pyOr req.spec_vdc req.qparam_vdc) = false →
      allCandidatesMiss env cspec.cluster_name →
      createCalls (createClusterM env req cspec).2 =
        [Event.createCluster Broker.vcd cspec]) := by
  have hdefault : ∀ _h : pyTruthy (pyOr req.spec_vdc req.qparam_vdc) = false ∨
      pyTruthy (pyOr (pyOr req.spec_org req.qparam_org) env.sessionOrg)
        = false,
      getBrokerBasedOnVdc env req = (Except.ok Broker.vcd, []) := by
    intro h
    have hfalse : (pyTruthy (pyOr req.spec_vdc req.qparam_vdc) &&
        pyTruthy (pyOr (pyOr req.spec_org req.qparam_org) env.sessionOrg))
          = false := by
      rcases h with h | h <;> simp [h]
    simp [getBrokerBasedOnVdc, hfalse]
  constructor
  · exact hdefault
  · intro hvdc hmiss
    have hb : (getBrokerBasedOnVdc env req).1 = Except.ok Broker.vcd := by
      rw [hdefault (Or.inl hvdc)]
    have hF : clusterResultTruthy
        (findClusterInOrg env cspec.cluster_name).1 = false := by
      rw [(findClusterInOrg_none_iff env cspec.cluster_name).mpr hmiss]
      rfl
    exact createCalls_create_delegate env req cspec Broker.vcd hF hb

/-- A concrete environment for witness theorems: every broker probe
misses, the org has no vdcs, directory lookups report native ownership. -/
def env0 : Env :=
  { vcdGetClusterInfo := fun _ => Except.error "vcd miss"
    vcdGetClusterConfig := fun _ => Except.error "vcd miss"
    vcdListClusters := Except.ok []
    vcdCreateCluster := fun _ => Except.ok [("name", some "created")]
    vcdResizeCluster := fun _ _ _ => Except.ok []
    vcdDeleteCluster := fun _ => Except.ok []
    pksGetClusterInfo := fun _ _ => Except.error "pks miss"
    pksGetClusterConfig := fun _ _ => Except.error "pks miss"
    pksListClusters := fun _ => Except.ok []
    pksCreateCluster := fun _ _ => Except.ok []
    pksResizeCluster := fun _ _ _ _ => Except.ok []
    pksDeleteCluster := fun _ _ => Except.ok []
    createComputeProfile := fun _ _ => Except.ok ()
    isSysadmin := false
    sessionOrg := some "org1"
    pksCachePresent := true
    allPksAccountInfoInSystem := []
    orgsHaveExclusivePksAccount := false
    exclusivePksAccountsForOrg := fun _ => []
    orgVdcNames := []
    ovdcMetadata := fun _ _ => [(CONTAINER_PROVIDER_KEY, some ctrProvTypeVcd)]
    constructPksContext := fun d => d
    getOvdc := fun _ => { resourceName := some "vdc1" }
    getPvdcId := fun _ => "pvdc1"
    getPvdcInfo := fun _ => { vc := "vc1" }
    getPksAccountInfo := fun _ _ => []
    getNsxtInfo := fun _ => []
    getComputeProfileName := fun _ _ => "cp--guid--vdc1"
    constructPksContextFull := fun a _ _ _ _ => a
    setOvdcMetadata := fun _ _ _ => [("href", some "task1")] }

/-- A concrete request that names no vdc and no org. -/
def req0 : Req :=
  { spec_vdc := none
    qparam_vdc := none
    spec_org := none
    qparam_org := none
    cluster_name := some "dup"
    node_count := none
    ovdc_id := none
    org_name := none
    ovdc_name := none
    pks_plans := none
    container_provider := none }

/-- A concrete request naming an explicit vdc and org. -/
def reqV : Req := { req0 with spec_vdc := some "v1", spec_org := some "o1" }

/-- A concrete create-cluster argument bag. -/
def cspec0 : CreateSpec :=
  { cluster_name := some "dup"
    vdc_name := some "v1"
    node_count := none
    storage_profile := none
    network_name := none
    template := none
    pks_plan := none
    pks_ext_host := none }

/-- Like `env0` but the native broker holds a cluster named dup. -/
def envDup : Env :=
  { env0 with vcdGetClusterInfo := fun _ => Except.ok [("name", some "dup")] }

/-- Like `env0` but the native probe succeeds with an empty (falsy)
record: the program treats this as not found. -/
def envEmpty : Env :=
  { env0 with vcdGetClusterInfo := fun _ => Except.ok [] }

theorem claim_C1_create_duplicate_witness :
    (createClusterM envDup req0 cspec0).1 =
      Except.error (Err.cseServer ("Cluster with name: " ++
        pyStr cspec0.cluster_name ++ " already found")) ∧
    createCalls (createClusterM env0 reqV cspec0).2 =
      [Event.createCluster Broker.vcd cspec0] := by
  constructor
  · exact ((claim_C1_create_duplicate envDup req0 cspec0).1
      [("name", some "dup")] Broker.vcd (by rfl) (by rfl)).1
  · exact (claim_C1_create_duplicate env0 reqV cspec0).2
      (Or.inl (by unfold allCandidatesMiss; decide)) Broker.vcd (by rfl)

/-- C1 counterexample: a probe succeeds (so not every reachable
candidate missed) but returns an empty record; the program raises no
duplicate error and delegates creation to a broker anyway. -/
theorem claim_C1_counterexample :
    ¬ allCandidatesMiss envEmpty (some "dup") ∧
    (createClusterM envEmpty req0 cspec0).1 =
      Except.ok [("name", some "created")] ∧
    createCalls (createClusterM envEmpty req0 cspec0).2 =
      [Event.createCluster Broker.vcd cspec0] := by
  refine ⟨by unfold allCandidatesMiss; decide, by rfl, by decide⟩

theorem claim_C3_miss_on_error_witness :
    (getClusterInfoM env0 req0 (some "dup")).1 =
      Except.error (Err.clusterNotFound (some "dup")) :=
  ((claim_C3_miss_on_error env0 req0 (some "dup") (by rfl)).1).mpr
    (Or.inl (by unfold allCandidatesMiss; decide))

/-- C3 counterexample: the native probe succeeds with an empty record,
so not every probed candidate missed or failed, yet the program raises
the cluster-not-found error. -/
theorem claim_C3_counterexample :
    (getClusterInfoM envEmpty req0 (some "dup")).1 =
      Except.error (Err.clusterNotFound (some "dup")) ∧
    ¬ allCandidatesMiss envEmpty (some "dup") := by
  refine ⟨by rfl, by unfold allCandidatesMiss; decide⟩

theorem claim_C10_default_broker_witness :
    getBrokerBasedOnVdc env0 req0 = (Except.ok Broker.vcd, []) ∧
    createCalls (createClusterM env0 req0 cspec0).2 =
      [Event.createCluster Broker.vcd cspec0] := by
  constructor
  · exact (claim_C10_default_broker env0 req0 cspec0).1 (Or.inl (by rfl))
  · exact (claim_C10_default_broker env0 req0 cspec0).2 (by rfl)
      (by unfold allCandidatesMiss; decide)

/-- Like `env0` but the native broker finds the cluster, with a record
carrying a marker field; `envD2` differs from `envD1` only in that
marker, so the two resolve different cluster records. -/
def envD1 : Env :=
  { env0 with vcdGetClusterInfo :=
      fun _ => Except.ok [("name", some "k8s"), ("marker", some "1")] }

/-- See `envD1`. -/
def envD2 : Env :=
  { env0 with vcdGetClusterInfo :=
      fun _ => Except.ok [("name", some "k8s"), ("marker", some "2")] }

/-- C4 counterexample: the two environments resolve different cluster
records during ownership resolution, yet the whole delete dispatch
(result and outbound calls) is identical, so the resolved record cannot
have been passed to the delete call of the broker; resize, by contrast, does
depend on the resolved record. -/
theorem claim_C4_counterexample :
    (findClusterInOrg envD1 (some "k8s")).1 ≠
      (findClusterInOrg envD2 (some "k8s")).1 ∧
    deleteClusterM envD1 req0 (some "k8s") =
      deleteClusterM envD2 req0 (some "k8s") ∧
    (resizeClusterM envD1 req0 (some "k8s") none).2 ≠
      (resizeClusterM envD2 req0 (some "k8s") none).2 := by
  refine ⟨by decide, by rfl, by decide⟩

/-- C4 amended: resize passes the resolved cluster record to the
resize call of the broker; delete discards the resolved record and passes
only the cluster name, so its broker must look the cluster up itself. -/
theorem claim_C4_resize_delete_record (env : Env) (req : Req)
    (name : Option String) (cnt : Option Nat) (c : PyDict) (b : Broker)
    (h : (getClusterInfoM env req name).1 = Except.ok (c, b)) :
    (resizeClusterM env req name cnt).2 =
      (getClusterInfoM env req name).2 ++ [Event.resizeCluster b c name cnt] ∧
    (deleteClusterM env req name).2 =
      (getClusterInfoM env req name).2 ++ [Event.deleteCluster b name] := by
  rcases hg : getClusterInfoM env req name with ⟨er, tr⟩
  have her : er = Except.ok (c, b) := by rw [hg] at h; exact h
  subst her
  constructor
  · cases hr : resizeClusterB env b c name cnt <;>
      simp [resizeClusterM, hg, hr]
  · cases hd : deleteClusterB env b name <;>
      simp [deleteClusterM, hg, hd]

theorem claim_C4_resize_delete_record_witness :
    (resizeClusterM envD1 req0 (some "k8s") none).2 =
      (getClusterInfoM envD1 req0 (some "k8s")).2 ++
        [Event.resizeCluster Broker.vcd
          [("name", some "k8s"), ("marker", some "1")] (some "k8s") none] ∧
    (deleteClusterM envD1 req0 (some "k8s")).2 =
      (getClusterInfoM envD1 req0 (some "k8s")).2 ++
        [Event.deleteCluster Broker.vcd (some "k8s")] :=
  claim_C4_resize_delete_record envD1 req0 (some "k8s") none
    [("name", some "k8s"), ("marker", some "1")] Broker.vcd (by rfl)

theorem getBroker_trace (env : Env) (req : Req)
    (hv : pyTruthy (pyOr req.spec_vdc req.qparam_vdc) = true)
    (ho : pyTruthy (pyOr (pyOr req.spec_org req.qparam_org) env.sessionOrg)
      = true) :
    (getBrokerBasedOnVdc env req).2 =
      [Event.dirLookup ((pyOr req.spec_vdc req.qparam_vdc).getD "")
        (pyOr (pyOr req.spec_org req.qparam_org) env.sessionOrg)] := by
  have hcond : (pyTruthy (pyOr req.spec_vdc req.qparam_vdc) &&
      pyTruthy (pyOr (pyOr req.spec_org req.qparam_org) env.sessionOrg))
        = true := by
    rw [hv, ho]; rfl
  simp [getBrokerBasedOnVdc, hcond]
  split
  · rfl
  · split <;> rfl

theorem findClusterInOrg_head (env : Env) (n : Option String) :
    ((findClusterInOrg env n).2).head? =
      some (Event.getClusterInfo Broker.vcd n) := by
  cases h : env.vcdGetClusterInfo n <;> simp [findClusterInOrg, h]

theorem createClusterM_head (env : Env) (req : Req) (cspec : CreateSpec) :
    ((createClusterM env req cspec).2).head? =
      some (Event.getClusterInfo Broker.vcd cspec.cluster_name) := by
  have hf2 : ((findClusterInOrg env cspec.cluster_name).2).head? =
      some (Event.getClusterInfo Broker.vcd cspec.cluster_name) :=
    findClusterInOrg_head env cspec.cluster_name
  cases hf1 : clusterResultTruthy (findClusterInOrg env cspec.cluster_name).1
      with
  | true =>
    have htr : (createClusterM env req cspec).2 =
        (findClusterInOrg env cspec.cluster_name).2 := by
      simp [createClusterM, hf1]
    rw [htr]; exact hf2
  | false =>
    rcases hg : getBrokerBasedOnVdc env req with ⟨eb, tr2⟩
    cases eb with
    | error e =>
      have htr : (createClusterM env req cspec).2 =
          (findClusterInOrg env cspec.cluster_name).2 ++ tr2 := by
        simp [createClusterM, hf1, hg]
      rw [htr]
      cases hl : (findClusterInOrg env cspec.cluster_name).2 with
      | nil => rw [hl] at hf2; simp at hf2
      | cons x xs => rw [hl] at hf2; simp at hf2; simp [hf2]
    | ok b =>
      cases hc : createClusterB env b cspec with
      | ok body =>
        have htr : (createClusterM env req cspec).2 =
            (findClusterInOrg env cspec.cluster_name).2 ++ tr2 ++
              [Event.createCluster b cspec] := by
          simp [createClusterM, hf1, hg, hc]
        rw [htr]
        cases hl : (findClusterInOrg env cspec.cluster_name).2 with
        | nil => rw [hl] at hf2; simp at hf2
        | cons x xs => rw [hl] at hf2; simp at hf2; simp [hf2]
      | error m =>
        have htr : (createClusterM env req cspec).2 =
            (findClusterInOrg env cspec.cluster_name).2 ++ tr2 ++
              [Event.createCluster b cspec] := by
          simp [createClusterM, hf1, hg, hc]
        rw [htr]
        cases hl : (findClusterInOrg env cspec.cluster_name).2 with
        | nil => rw [hl] at hf2; simp at hf2
        | cons x xs => rw [hl] at hf2; simp at hf2; simp [hf2]

/-- C5 counterexample: a create-cluster request with an explicit,
validly-owned vdc (the directory lookup resolves the vCD broker) still
enters the duplicate-name search and issues two broker calls, not one. -/
theorem claim_C5_counterexample :
    (getBrokerBasedOnVdc env0 reqV).1 = Except.ok Broker.vcd ∧
    ((createClusterM env0 reqV cspec0).2.filter isBrokerCallEvent).length
      ≠ 1 := by
  refine ⟨by rfl, by decide⟩

/-- C5 amended: with an explicit, validly-owned vdc, the get-info,
get-config and list operations each perform a single directory lookup
and exactly one broker call; resize and delete perform a single lookup
and two broker calls, both to the resolved broker; create-cluster is the
exception — its first outbound call is always the native search probe of
the duplicate-name search, even with an explicit vdc. -/
theorem claim_C5_direct_resolution (env : Env) (req : Req) (b : Broker)
    (n : Option String) (cnt : Option Nat) (c : PyDict) (cspec : CreateSpec)
    (hv : pyTruthy (pyOr req.spec_vdc req.qparam_vdc) = true)
    (ho : pyTruthy (pyOr (pyOr req.spec_org req.qparam_org) env.sessionOrg)
      = true)
    (hb : (getBrokerBasedOnVdc env req).1 = Except.ok b)
    (hc : getClusterInfoB env b n = Except.ok c) :
    (getClusterInfoM env req n).2 =
      [Event.dirLookup ((pyOr req.spec_vdc req.qparam_vdc).getD "")
        (pyOr (pyOr req.spec_org req.qparam_org) env.sessionOrg),
       Event.getClusterInfo b n] ∧
    (getClusterConfigM env req n).2 =
      [Event.dirLookup ((pyOr req.spec_vdc req.qparam_vdc).getD "")
        (pyOr (pyOr req.spec_org req.qparam_org) env.sessionOrg),
       Event.getClusterConfig b n] ∧
    (listClustersM env req).2 =
      [Event.dirLookup ((pyOr req.spec_vdc req.qparam_vdc).getD "")
        (pyOr (pyOr req.spec_org req.qparam_org) env.sessionOrg),
       Event.listClusters b] ∧
    (resizeClusterM env req n cnt).2 =
      [Event.dirLookup ((pyOr req.spec_vdc req.qparam_vdc).getD "")
        (pyOr (pyOr req.spec_org req.qparam_org) env.sessionOrg),
       Event.getClusterInfo b n, Event.resizeCluster b c n cnt] ∧
    (deleteClusterM env req n).2 =
      [Event.dirLookup ((pyOr req.spec_vdc req.qparam_vdc).getD "")
        (pyOr (pyOr req.spec_org req.qparam_org) env.sessionOrg),
       Event.getClusterInfo b n, Event.deleteCluster b n] ∧
    ((createClusterM env req cspec).2).head? =
      some (Event.getClusterInfo Broker.vcd cspec.cluster_name) := by
  rcases hg : getBrokerBasedOnVdc env req with ⟨eb, tr⟩
  have heb : eb = Except.ok b := by rw [hg] at hb; exact hb
  subst heb
  have htr : tr =
      [Event.dirLookup ((pyOr req.spec_vdc req.qparam_vdc).getD "")
        (pyOr (pyOr req.spec_org req.qparam_org) env.sessionOrg)] := by
    have := getBroker_trace env req hv ho
    rw [hg] at this; exact this
  subst htr
  have hov : isOvdcPresentInRequest req = true := hv
  have hInfo : getClusterInfoM env req n =
      (Except.ok (c, b),
       [Event.dirLookup ((pyOr req.spec_vdc req.qparam_vdc).getD "")
         (pyOr (pyOr req.spec_org req.qparam_org) env.sessionOrg),
        Event.getClusterInfo b n]) := by
    simp [getClusterInfoM, hov, hg, hc]
  refine ⟨?_, ?_, ?_, ?_, ?_, ?_⟩
  · rw [hInfo]
  · cases hcfg : getClusterConfigB env b n <;>
      simp [getClusterConfigM, hov, hg, hcfg]
  · cases hl : listClustersB env b <;> simp [listClustersM, hov, hg, hl]
  · cases hr : resizeClusterB env b c n cnt <;>
      simp [resizeClusterM, hInfo, hr]
  · cases hd : deleteClusterB env b n <;> simp [deleteClusterM, hInfo, hd]
  · exact createClusterM_head env req cspec

theorem claim_C5_direct_resolution_witness :
    (getClusterInfoM envD1 reqV (some "k8s")).2 =
      [Event.dirLookup "v1" (some "o1"),
       Event.getClusterInfo Broker.vcd (some "k8s")] ∧
    (getClusterConfigM envD1 reqV (some "k8s")).2 =
      [Event.dirLookup "v1" (some "o1"),
       Event.getClusterConfig Broker.vcd (some "k8s")] ∧
    (listClustersM envD1 reqV).2 =
      [Event.dirLookup "v1" (some "o1"), Event.listClusters Broker.vcd] ∧
    (resizeClusterM envD1 reqV (some "k8s") none).2 =
      [Event.dirLookup "v1" (some "o1"),
       Event.getClusterInfo Broker.vcd (some "k8s"),
       Event.resizeCluster Broker.vcd
         [("name", some "k8s"), ("marker", some "1")] (some "k8s") none] ∧
    (deleteClusterM envD1 reqV (some "k8s")).2 =
      [Event.dirLookup "v1" (some "o1"),
       Event.getClusterInfo Broker.vcd (some "k8s"),
       Event.deleteCluster Broker.vcd (some "k8s")] ∧
    ((createClusterM envD1 reqV cspec0).2).head? =
      some (Event.getClusterInfo Broker.vcd (some "dup")) :=
  claim_C5_direct_resolution envD1 reqV Broker.vcd (some "k8s") none
    [("name", some "k8s"), ("marker", some "1")] cspec0
    (by rfl) (by rfl) (by rfl) (by rfl)

theorem status_after_vdc_set (cluster : PyDict) (v : Option String) :
    pyGetD (pySet (projectKeys cluster commonClusterProperties) "vdc" v)
      "status" (some "") = pyGet cluster "status" := by
  simp [pyGetD, pySet, projectKeys, commonClusterProperties, pyLookup, pyGet]

theorem get_status_final (cluster : PyDict) (v st : Option String) :
    pyGet (pySet (pySet (projectKeys cluster commonClusterProperties) "vdc" v)
      "status" st) "status" = st := by
  simp [pyGet, pySet, projectKeys, commonClusterProperties, pyLookup]

theorem get_vdc_final (cluster : PyDict) (v st : Option String) :
    pyGet (pySet (pySet (projectKeys cluster commonClusterProperties) "vdc" v)
      "status" st) "vdc" = v := by
  simp [pyGet, pySet, projectKeys, commonClusterProperties, pyLookup]

/-- C6: in the PKS-record projection, the normalized status equals the
lower-cased last-action, a space, and the lower-cased status
concatenated, and the owning-vdc field equals the last double-dash
segment of the compute-profile name. -/
theorem claim_C6_pks_projection (cluster : PyDict) (s la cpn : String)
    (h1 : pyGet cluster "status" = some s)
    (h2 : pyGetD cluster "last-action" (some "") = some la)
    (h3 : pyGetD cluster "compute-profile-name" (some "") = some cpn) :
    ∃ d, getTruncatedClusterInfo cluster commonClusterProperties = some d ∧
      pyGet d "status" = some (lowerStr la ++ " " ++ lowerStr s) ∧
      pyGet d "vdc" = some ((splitDoubleDash cpn).getLastD "") := by
  have hst : pyGetD (pySet (projectKeys cluster commonClusterProperties)
      "vdc" (some (if pyTruthy (some cpn) then
        (splitDoubleDash cpn).getLastD "" else ""))) "status" (some "")
      = some s := by
    rw [status_after_vdc_set, h1]
  refine ⟨pySet (pySet (projectKeys cluster commonClusterProperties) "vdc"
      (some (if pyTruthy (some cpn) then (splitDoubleDash cpn).getLastD ""
        else ""))) "status" (some (lowerStr la ++ " " ++ lowerStr s)),
    ?_, ?_, ?_⟩
  · simp only [getTruncatedClusterInfo, h3, h2, Option.getD_some, hst]
  · exact get_status_final cluster _ _
  · rw [get_vdc_final]
    by_cases hc : cpn = ""
    · subst hc; decide
    · simp [pyTruthy, hc]

/-- A concrete raw PKS cluster record. -/
def cluster1 : PyDict :=
  [("name", some "c"), ("status", some "SUCCEEDED"),
   ("last-action", some "CREATE"),
   ("compute-profile-name", some "cp--guid--myvdc")]

theorem claim_C6_pks_projection_witness :
    (getTruncatedClusterInfo cluster1 commonClusterProperties).map
        (fun d => (pyGet d "status", pyGet d "vdc")) =
      some (some (lowerStr "CREATE" ++ " " ++ lowerStr "SUCCEEDED"),
            some ((splitDoubleDash "cp--guid--myvdc").getLastD "")) := by
  obtain ⟨d, hd, hs, hv⟩ := claim_C6_pks_projection cluster1 "SUCCEEDED"
    "CREATE" "cp--guid--myvdc" (by rfl) (by rfl) (by rfl)
  simp [hd, hs, hv]

theorem pyKeys_projectVcd (c : PyDict) :
    pyKeys (projectVcdCluster c) =
      commonClusterProperties ++ [CONTAINER_PROVIDER_KEY] := by
  simp [pyKeys, projectVcdCluster, pySet, projectKeys, commonClusterProperties,
    CONTAINER_PROVIDER_KEY]

theorem pyKeys_truncated (cluster : PyDict) (d : PyDict)
    (h : getTruncatedClusterInfo cluster commonClusterProperties = some d) :
    pyKeys (pySet d CONTAINER_PROVIDER_KEY (some ctrProvTypePks)) =
      commonClusterProperties ++ [CONTAINER_PROVIDER_KEY] := by
  simp only [getTruncatedClusterInfo, status_after_vdc_set] at h
  cases hla : pyGetD cluster "last-action" (some "") with
  | none => simp [hla] at h
  | some la =>
    simp only [hla] at h
    cases hst : pyGet cluster "status" with
    | none => simp [hst] at h
    | some st =>
      simp only [hst, Option.some.injEq] at h
      subst h
      simp [pyKeys, pySet, projectKeys, commonClusterProperties,
        CONTAINER_PROVIDER_KEY]

theorem projectPksRecords_keys : ∀ cs ps, projectPksRecords cs = some ps →
    ∀ d ∈ ps,
      pyKeys d = commonClusterProperties ++ [CONTAINER_PROVIDER_KEY] := by
  intro cs
  induction cs with
  | nil =>
    intro ps h d hd
    simp [projectPksRecords] at h
    subst h
    simp at hd
  | cons c rest ih =>
    intro ps h d hd
    cases ht : getTruncatedClusterInfo c commonClusterProperties with
    | none => simp [projectPksRecords, ht] at h
    | some d1 =>
      cases hr : projectPksRecords rest with
      | none => simp [projectPksRecords, ht, hr] at h
      | some ds =>
        have hps : ps =
            pySet d1 CONTAINER_PROVIDER_KEY (some ctrProvTypePks) :: ds := by
          simp [projectPksRecords, ht, hr] at h
          exact h.symm
        subst hps
        rcases List.mem_cons.mp hd with hd1 | hd2
        · subst hd1; exact pyKeys_truncated c d1 ht
        · exact ih ds hr d hd2

theorem projectPksClusters_keys (env : Env) : ∀ l ps,
    (projectPksClusters env l).1 = Except.ok ps →
    ∀ d ∈ ps,
      pyKeys d = commonClusterProperties ++ [CONTAINER_PROVIDER_KEY] := by
  intro l
  induction l with
  | nil =>
    intro ps h d hd
    simp [projectPksClusters] at h
    subst h
    simp at hd
  | cons ctx rest ih =>
    intro ps h d hd
    cases hl : env.pksListClusters ctx with
    | error m => simp [projectPksClusters, hl] at h
    | ok cs =>
      cases hr : projectPksRecords cs with
      | none => simp [projectPksClusters, hl, hr] at h
      | some ps1 =>
        cases hrec : (projectPksClusters env rest).1 with
        | error e => simp [projectPksClusters, hl, hr, hrec, Except.map] at h
        | ok ps2 =>
          have hps : ps = ps1 ++ ps2 := by
            simp [projectPksClusters, hl, hr, hrec, Except.map] at h
            exact h.symm
          subst hps
          rcases List.mem_append.mp hd with hd1 | hd2
          · exact projectPksRecords_keys cs ps1 hr d hd1
          · exact ih ps2 hrec d hd2

/-- C7: a list-clusters request naming no vdc returns the projected
native records followed by the projected external-service records in
account-enumeration order, each projected to name, vdc and status plus
the provider-kind tag. -/
theorem claim_C7_list_aggregation (env : Env) (req : Req)
    (vcs ps : List PyDict) (evs : List Event)
    (h : isOvdcPresentInRequest req = false)
    (hv : env.vcdListClusters = Except.ok vcs)
    (hp : projectPksClusters env (createPksContextForAllAccountsInOrg env).1
      = (Except.ok ps, evs)) :
    (listClustersM env req).1 =
      Except.ok (vcs.map projectVcdCluster ++ ps) ∧
    (∀ d ∈ vcs.map projectVcdCluster,
      pyKeys d = commonClusterProperties ++ [CONTAINER_PROVIDER_KEY]) ∧
    (∀ d ∈ ps,
      pyKeys d = commonClusterProperties ++ [CONTAINER_PROVIDER_KEY]) := by
  refine ⟨?_, ?_, ?_⟩
  · simp [listClustersM, h, hv, hp, Except.map]
  · intro d hd
    rcases List.mem_map.mp hd with ⟨c, _, rfl⟩
    exact pyKeys_projectVcd c
  · intro d hd
    have hp1 : (projectPksClusters env
        (createPksContextForAllAccountsInOrg env).1).1 = Except.ok ps := by
      rw [hp]
    exact projectPksClusters_keys env _ ps hp1 d hd

/-- A concrete raw native cluster record. -/
def vcdRawCluster : PyDict :=
  [("name", some "v-c1"), ("vdc", some "vd1"), ("status", some "POWERED_ON")]

/-- A concrete raw external-service cluster record. -/
def pksRawCluster : PyDict :=
  [("name", some "p-c1"), ("status", some "SUCC"),
   ("last-action", some "CREATE"), ("compute-profile-name", some "cp--g--vd2")]

/-- Concrete directory metadata marking a vdc as PKS-owned on endpoint vc1. -/
def pksMd : PyDict :=
  [(CONTAINER_PROVIDER_KEY, some ctrProvTypePks), ("vc", some "vc1"),
   ("host", some "pks1")]

/-- Environment with one native cluster and one PKS account holding one
cluster, for the list-aggregation witness. -/
def envList : Env :=
  { env0 with
    vcdListClusters := Except.ok [vcdRawCluster]
    orgVdcNames := ["vd2"]
    ovdcMetadata := fun _ _ => pksMd
    pksListClusters := fun _ => Except.ok [pksRawCluster] }

/-- The projected PKS records of `envList`. -/
def psWit : List PyDict :=
  [[("name", some "p-c1"), ("vdc", some "vd2"),
    ("status", some "create succ"),
    (CONTAINER_PROVIDER_KEY, some ctrProvTypePks)]]

theorem claim_C7_list_aggregation_witness :
    (listClustersM envList req0).1 =
      Except.ok ([vcdRawCluster].map projectVcdCluster ++ psWit) :=
  (claim_C7_list_aggregation envList req0 [vcdRawCluster] psWit
    [Event.listClusters (Broker.pks pksMd)] (by rfl) (by rfl) (by rfl)).1

/-- C8: during compute-profile provisioning for the enable operation, a
provider error with HTTP status 409 is swallowed and the enable
operation proceeds to persist ownership; any other status is re-raised
and the enable operation aborts without persisting ownership. -/
theorem claim_C8_conflict_swallowed (env : Env) (req : Req) (ctx : PyDict)
    (ovdc : OvdcObj) (s : Nat) (m : String)
    (h1 : req.container_provider = some ctrProvTypePks)
    (h2 : getOvdcParams env req = Except.ok (some ctx, ovdc)) :
    ((∀ c p, env.createComputeProfile c p =
        Except.error (PksCallErr.pksServerError 409 m)) →
      (enableOvdcOp env req).1 = Except.ok
        [("task_href", pyGet (env.setOvdcMetadata ovdc (some ctx)
          (some ctrProvTypePks)) "href")] ∧
      ((enableOvdcOp env req).2).any isSetMetadataEvent = true) ∧
    (s ≠ 409 →
      (∀ c p, env.createComputeProfile c p =
        Except.error (PksCallErr.pksServerError s m)) →
      (enableOvdcOp env req).1 = Except.error (Err.pksServer s m) ∧
      ((enableOvdcOp env req).2).any isSetMetadataEvent = false) := by
  constructor
  · intro hconf
    have hc := hconf ctx (pksComputeProfileParamsOf env req ctx)
    constructor
    · simp [enableOvdcOp, h2, h1, createPksComputeProfileM, hc]
    · simp [enableOvdcOp, h2, h1, createPksComputeProfileM, hc,
        isSetMetadataEvent]
  · intro hs hconf
    have hc := hconf ctx (pksComputeProfileParamsOf env req ctx)
    have h409 : (s == 409) = false := by simp [hs]
    constructor
    · simp [enableOvdcOp, h2, h1, createPksComputeProfileM, hc, h409]
    · simp [enableOvdcOp, h2, h1, createPksComputeProfileM, hc, h409,
        isSetMetadataEvent]

/-- An enable-ovdc request targeting the PKS provider. -/
def reqEnable : Req :=
  { req0 with
    container_provider := some ctrProvTypePks
    pks_plans := some "small"
    ovdc_id := some "id1"
    org_name := some "orgA"
    ovdc_name := some "vd9" }

/-- Environment whose compute-profile call always reports a conflict. -/
def env409 : Env :=
  { env0 with createComputeProfile :=
      fun _ _ => Except.error (PksCallErr.pksServerError 409 "conflict") }

/-- Environment whose compute-profile call always fails with status 500. -/
def env500 : Env :=
  { env0 with createComputeProfile :=
      fun _ _ => Except.error (PksCallErr.pksServerError 500 "boom") }

theorem claim_C8_conflict_swallowed_witness :
    ((enableOvdcOp env409 reqEnable).1 = Except.ok
        [("task_href", pyGet (env409.setOvdcMetadata
          { resourceName := some "vdc1" } (some [])
          (some ctrProvTypePks)) "href")] ∧
      ((enableOvdcOp env409 reqEnable).2).any isSetMetadataEvent = true) ∧
    ((enableOvdcOp env500 reqEnable).1 =
        Except.error (Err.pksServer 500 "boom") ∧
      ((enableOvdcOp env500 reqEnable).2).any isSetMetadataEvent = false) := by
  constructor
  · exact (claim_C8_conflict_swallowed env409 reqEnable []
      { resourceName := some "vdc1" } 0 "conflict" (by rfl) (by rfl)).1
      (fun _ _ => rfl)
  · exact (claim_C8_conflict_swallowed env500 reqEnable []
      { resourceName := some "vdc1" } 500 "boom" (by rfl) (by rfl)).2
      (by decide) (fun _ _ => rfl)

theorem fst_setElem (q : Option String × PyDict) (k : Option String)
    (v : PyDict) : (if q.1 == k then (k, v) else q).1 = q.1 := by
  by_cases h : (q.1 == k) = true
  · simp only [h, if_true]; exact (beq_iff_eq.mp h).symm
  · simp only [h, if_false, Bool.false_eq_true]

theorem map_fst_setElem (acc : List (Option String × PyDict))
    (k : Option String) (v : PyDict) :
    (acc.map (fun p => if p.1 == k then (k, v) else p)).map (fun p => p.1) =
      acc.map (fun p => p.1) := by
  induction acc with
  | nil => rfl
  | cons q qs ih =>
    simp only [List.map_cons, List.cons.injEq]
    exact ⟨fst_setElem q k v, ih⟩

theorem ctxDictSet_keys (acc : List (Option String × PyDict))
    (k : Option String) (v : PyDict) :
    (ctxDictSet acc k v).map (fun p => p.1) =
      if acc.any (fun p => p.1 == k) then acc.map (fun p => p.1)
      else acc.map (fun p => p.1) ++ [k] := by
  by_cases h : acc.any (fun p => p.1 == k) = true
  · simp only [ctxDictSet, h, if_true, map_fst_setElem]
  · have h' : acc.any (fun p => p.1 == k) = false := by
      cases hb : acc.any (fun p => p.1 == k)
      · rfl
      · exact absurd hb h
    simp [ctxDictSet, h', List.map_append]

theorem mem_ctxDictSet (acc : List (Option String × PyDict))
    (k : Option String) (v : PyDict) (p : Option String × PyDict)
    (hp : p ∈ ctxDictSet acc k v) : p ∈ acc ∨ p = (k, v) := by
  unfold ctxDictSet at hp
  split at hp
  · rcases List.mem_map.mp hp with ⟨q, hq, hfq⟩
    by_cases h : (q.1 == k) = true
    · right; rw [← hfq]; simp [h]
    · left; rw [← hfq]; simp only [h, if_false, Bool.false_eq_true]; exact hq
  · rcases List.mem_append.mp hp with h | h
    · left; exact h
    · right; simpa using h

/-- The invariant maintained by the endpoint-keyed account dict: each
value is PKS-owned metadata of some vdc of the org, stored under its own
vc endpoint. -/
def ctxInv (env : Env) (p : Option String × PyDict) : Prop :=
  pyGet p.2 "vc" = p.1 ∧
  pyGet p.2 CONTAINER_PROVIDER_KEY = some ctrProvTypePks ∧
  ∃ v ∈ env.orgVdcNames, p.2 = env.ovdcMetadata v env.sessionOrg

theorem buildPksCtxDict_inv (env : Env) :
    ∀ (l : List String) (acc : List (Option String × PyDict)),
    (∀ p ∈ acc, ctxInv env p) →
    (acc.map (fun p => p.1)).Nodup →
    (∀ v ∈ l, v ∈ env.orgVdcNames) →
    (∀ p ∈ buildPksCtxDict env acc l, ctxInv env p) ∧
    ((buildPksCtxDict env acc l).map (fun p => p.1)).Nodup := by
  intro l
  induction l with
  | nil => intro acc hacc hnd _; exact ⟨hacc, hnd⟩
  | cons v rest ih =>
    intro acc hacc hnd hsub
    by_cases hpks : (pyGet (env.ovdcMetadata v env.sessionOrg)
        CONTAINER_PROVIDER_KEY == some ctrProvTypePks) = true
    · have hstep : buildPksCtxDict env acc (v :: rest) =
          buildPksCtxDict env
            (ctxDictSet acc (pyGet (env.ovdcMetadata v env.sessionOrg) "vc")
              (env.ovdcMetadata v env.sessionOrg)) rest := by
        simp [buildPksCtxDict, hpks]
      rw [hstep]
      apply ih
      · intro p hp
        rcases mem_ctxDictSet _ _ _ p hp with h | h
        · exact hacc p h
        · subst h
          exact ⟨rfl, beq_iff_eq.mp hpks,
            ⟨v, List.mem_cons_self v rest |> hsub v, rfl⟩⟩
      · rw [ctxDictSet_keys]
        by_cases hany : acc.any
            (fun p => p.1 == pyGet (env.ovdcMetadata v env.sessionOrg) "vc")
              = true
        · simp only [hany, if_true]; exact hnd
        · have hany' : acc.any (fun p =>
              p.1 == pyGet (env.ovdcMetadata v env.sessionOrg) "vc")
                = false := by
            cases hb : acc.any (fun p =>
              p.1 == pyGet (env.ovdcMetadata v env.sessionOrg) "vc")
            · rfl
            · exact absurd hb hany
          simp only [hany', Bool.false_eq_true, if_false]
          have hnotin : pyGet (env.ovdcMetadata v env.sessionOrg) "vc" ∉
              acc.map (fun p => p.1) := by
            intro hmem
            rcases List.mem_map.mp hmem with ⟨q, hq, hfq⟩
            have := List.any_eq_false.mp hany' q hq
            rw [hfq] at this
            simp at this
          rw [List.nodup_append]
          exact ⟨hnd, List.nodup_singleton _,
            fun a ha hb => by
              rcases List.mem_singleton.mp hb with rfl
              exact hnotin ha⟩
      · intro x hx; exact hsub x (List.mem_cons_of_mem v hx)
    · have hpks' : (pyGet (env.ovdcMetadata v env.sessionOrg)
          CONTAINER_PROVIDER_KEY == some ctrProvTypePks) = false := by
        cases hb : pyGet (env.ovdcMetadata v env.sessionOrg)
            CONTAINER_PROVIDER_KEY == some ctrProvTypePks
        · rfl
        · exact absurd hb hpks
      have hstep : buildPksCtxDict env acc (v :: rest) =
          buildPksCtxDict env acc rest := by
        simp [buildPksCtxDict, hpks']
      rw [hstep]
      exact ih acc hacc hnd (fun x hx => hsub x (List.mem_cons_of_mem v hx))

theorem map_values_vc (l : List (Option String × PyDict))
    (h : ∀ p ∈ l, pyGet p.2 "vc" = p.1) :
    (l.map (fun p => p.2)).map (fun d => pyGet d "vc") =
      l.map (fun p => p.1) := by
  induction l with
  | nil => rfl
  | cons q qs ih =>
    simp only [List.map_cons, List.cons.injEq]
    exact ⟨h q (List.mem_cons_self q qs),
      ih (fun p hp => h p (List.mem_cons_of_mem q hp))⟩

/-- C9: for a non-sysadmin caller whose org has no exclusive PKS
accounts, account enumeration derives candidates from the ownership
metadata of the vdcs of the org, keeps only PKS-owned ones, and deduplicates
them by the vc endpoint; two vdcs sharing one endpoint contribute
exactly one candidate. -/
theorem claim_C9_account_dedup (env : Env)
    (h1 : env.pksCachePresent = true)
    (h2 : env.isSysadmin = false)
    (h3 : env.orgsHaveExclusivePksAccount = false) :
    (∀ d ∈ (createPksContextForAllAccountsInOrg env).1,
      pyGet d CONTAINER_PROVIDER_KEY = some ctrProvTypePks ∧
      ∃ v ∈ env.orgVdcNames, d = env.ovdcMetadata v env.sessionOrg) ∧
    ((createPksContextForAllAccountsInOrg env).1.map
      (fun d => pyGet d "vc")).Nodup ∧
    (∀ v1 v2, env.orgVdcNames = [v1, v2] →
      pyGet (env.ovdcMetadata v1 env.sessionOrg) CONTAINER_PROVIDER_KEY
        = some ctrProvTypePks →
      pyGet (env.ovdcMetadata v2 env.sessionOrg) CONTAINER_PROVIDER_KEY
        = some ctrProvTypePks →
      pyGet (env.ovdcMetadata v1 env.sessionOrg) "vc"
        = pyGet (env.ovdcMetadata v2 env.sessionOrg) "vc" →
      (createPksContextForAllAccountsInOrg env).1.length = 1) := by
  have henum : (createPksContextForAllAccountsInOrg env).1 =
      (buildPksCtxDict env [] env.orgVdcNames).map (fun p => p.2) := by
    simp [createPksContextForAllAccountsInOrg, h1, h2, h3]
  have hinv := buildPksCtxDict_inv env env.orgVdcNames []
    (by intro p hp; simp at hp) (by simp) (fun v hv => hv)
  refine ⟨?_, ?_, ?_⟩
  · intro d hd
    rw [henum] at hd
    rcases List.mem_map.mp hd with ⟨p, hp, rfl⟩
    rcases hinv.1 p hp with ⟨_, hprov, hsrc⟩
    exact ⟨hprov, hsrc⟩
  · rw [henum, map_values_vc _ (fun p hp => (hinv.1 p hp).1)]
    exact hinv.2
  · intro v1 v2 hl hp1 hp2 hvc
    rw [henum, hl]
    simp [buildPksCtxDict, hp1, hp2, ctxDictSet, hvc]

/-- Two vdcs with identical PKS-owned metadata on one endpoint. -/
def env9 : Env :=
  { env0 with
    orgVdcNames := ["vdA", "vdB"]
    ovdcMetadata := fun _ _ => pksMd }

theorem claim_C9_account_dedup_witness :
    (createPksContextForAllAccountsInOrg env9).1.length = 1 :=
  (claim_C9_account_dedup env9 (by rfl) (by rfl) (by rfl)).2.2
    "vdA" "vdB" (by rfl) (by rfl) (by rfl) (by rfl)
